import Mathlib

/-!
Verification of the pywps-flask demo server (demo.py, processes/sayhello.py).

The bespoke logic of the repository is:
  * a bounded result cache `recent_data_files = deque(maxlen=20)` of
    data-file dicts {uuid, bytes, mime-type}, appended to by the centroid
    handler and scanned linearly by the `/datafile/<uuid>` flask route;
  * three WPS process handlers: `say_hello`, `feature_count`, `centroids`;
  * a `temp_dir` context manager guaranteeing removal of a scoped
    temporary directory on every exit path.

External collaborators (lxml parsing, the ogr2ogr conversion tool, the
shapely centroid computation, json serialisation) are modelled as
parameters or as reified outcomes (`Except`), never reimplemented.
-/

namespace PywpsFlaskDemo

/-- A cached data file: the dict built in `centroids` with keys
`uuid`, `bytes`, `mime-type` and stored in `recent_data_files`. -/
structure CachedFile where
  uuid : String
  bytes : String
  mimeType : String
deriving DecidableEq, Repr

/-- The `maxlen` of the `recent_data_files` deque (demo.py line 19). -/
def CACHE_MAXLEN : Nat := 20

/-- `recent_data_files.append(e)` on a `deque(maxlen=20)`: the entry is
appended on the right; when the deque is already at capacity the leftmost
(oldest) entry is discarded first.  The cache state is the list of entries
oldest first. -/
def putEntry (c : List CachedFile) (e : CachedFile) : List CachedFile :=
  if c.length < CACHE_MAXLEN then c ++ [e] else c.tail ++ [e]

/-- The linear scan of the `datafile` route (demo.py lines 89-91):
`for data_file in recent_data_files: if data_file['uuid'] == uuid: ...`,
iterating oldest to newest and returning the first match. -/
def findEntry (c : List CachedFile) (u : String) : Option CachedFile :=
  c.find? (fun d => d.uuid == u)

/-- Outcome of a flask view: a response with a body and a content media
type, or an aborted not-found response. -/
inductive HttpResult where
  | ok (body : String) (mimetype : String)
  | notFound
deriving DecidableEq, Repr

/-- The media type a `flask.Response` carries when, as in
`flask.Response(data_file['bytes'])`, no mimetype argument is given. -/
def flaskDefaultMimetype : String := "text/html"

/-- The `/datafile/<uuid>` route (demo.py lines 87-93).  It only reads
`recent_data_files`; the cache component of the result is the state of the
cache after the request. -/
def datafile_route (c : List CachedFile) (u : String) :
    HttpResult × List CachedFile :=
  match findEntry c u with
  | some d => (HttpResult.ok d.bytes flaskDefaultMimetype, c)
  | none => (HttpResult.notFound, c)

/-- Folding `putEntry` from the empty deque keeps exactly the
`CACHE_MAXLEN`-suffix of the inserted sequence, in insertion order. -/
theorem foldl_putEntry_drop (es : List CachedFile) :
    es.foldl putEntry [] = es.drop (es.length - CACHE_MAXLEN) := by
  induction es using List.reverseRecOn with
  | nil => simp
  | append_singleton l e ih =>
    rw [List.foldl_append]
    simp only [List.foldl_cons, List.foldl_nil]
    rw [ih, putEntry]
    have hC : CACHE_MAXLEN = 20 := rfl
    by_cases h : l.length < CACHE_MAXLEN
    · rw [if_pos]
      · have h0 : l.length - CACHE_MAXLEN = 0 := by omega
        have h1 : (l ++ [e]).length - CACHE_MAXLEN = 0 := by
          simp only [List.length_append, List.length_singleton]; omega
        rw [h0, h1, List.drop_zero, List.drop_zero]
      · rw [List.length_drop]; omega
    · rw [if_neg]
      · have hlen : CACHE_MAXLEN ≤ l.length := by omega
        rw [List.tail_drop]
        have h2 : (l ++ [e]).length - CACHE_MAXLEN
            = (l.length - CACHE_MAXLEN) + 1 := by
          simp only [List.length_append, List.length_singleton]; omega
        rw [h2, List.drop_append_of_le_length (by omega)]
      · rw [List.length_drop]; omega

/-- C1: For every sequence of put operations on the bounded result cache,
the cache's size never exceeds its fixed capacity of 20, and the
resulting cache is exactly the 20-entry suffix of the inserted sequence in
insertion order: the oldest entries are discarded first, strict FIFO, with
no access-based promotion. -/
theorem cache_capacity_fifo (es : List CachedFile) :
    (es.foldl putEntry []).length ≤ CACHE_MAXLEN ∧
    es.foldl putEntry [] = es.drop (es.length - CACHE_MAXLEN) := by
  refine ⟨?_, foldl_putEntry_drop es⟩
  rw [foldl_putEntry_drop, List.length_drop]
  omega

/-- A `find?` over a list followed by a single appended element: when no
element of the prefix satisfies the predicate and the appended element
does, the appended element is found. -/
theorem find?_append_last {α : Type} (p : α → Bool) (l : List α) (e : α)
    (hl : ∀ x ∈ l, p x = false) (he : p e = true) :
    (l ++ [e]).find? p = some e := by
  induction l with
  | nil => simpa using List.find?_cons_of_pos [] he
  | cons a t ih =>
    rw [List.cons_append,
      List.find?_cons_of_neg _ (by simp [hl a (List.mem_cons_self a t)])]
    exact ih fun x hx => hl x (List.mem_cons_of_mem a hx)

/-- `find?` returns the element at the first index satisfying the
predicate. -/
theorem find?_first {α : Type} (p : α → Bool) :
    ∀ (c : List α) (i : Nat) (hi : i < c.length),
      (∀ k (hk : k < i), p (c.get ⟨k, Nat.lt_trans hk hi⟩) = false) →
      p (c.get ⟨i, hi⟩) = true → c.find? p = some (c.get ⟨i, hi⟩)
  | a :: _, 0, _, _, hp => List.find?_cons_of_pos _ hp
  | a :: t, i + 1, hi, hfirst, hp => by
    rw [List.find?_cons_of_neg _
      (by simpa using hfirst 0 (Nat.succ_pos i))]
    exact find?_first p t i (Nat.lt_of_succ_lt_succ hi)
      (fun k hk => hfirst (k + 1) (Nat.succ_lt_succ hk)) hp

/-- The scan misses when no cached entry carries the requested uuid. -/
theorem findEntry_eq_none (c : List CachedFile) (u : String)
    (h : ∀ d ∈ c, d.uuid ≠ u) : findEntry c u = none := by
  rw [findEntry, List.find?_eq_none]
  intro x hx
  simpa using h x hx

/-- Appending an entry whose uuid is not yet in the cache makes it
findable, whether or not the append evicted the oldest entry. -/
theorem findEntry_putEntry_fresh (c : List CachedFile) (e : CachedFile)
    (hfresh : ∀ d ∈ c, d.uuid ≠ e.uuid) :
    findEntry (putEntry c e) e.uuid = some e := by
  rw [putEntry]
  by_cases h : c.length < CACHE_MAXLEN
  · rw [if_pos h, findEntry]
    exact find?_append_last _ c e
      (fun x hx => by simpa using hfresh x hx) (by simp)
  · rw [if_neg h, findEntry]
    exact find?_append_last _ c.tail e
      (fun x hx => by simpa using hfresh x (List.mem_of_mem_tail hx)) (by simp)

/-- C2: After inserting 21 entries with pairwise-distinct identifiers into
the initially empty cache, the first entry is no longer retrievable by its
identifier, and the cache holds exactly the 20 most recent entries in
insertion order. -/
theorem cache_21_evicts_first (es : List CachedFile) (e : CachedFile)
    (h21 : es.length = 21) (hnd : (es.map CachedFile.uuid).Nodup)
    (hhead : es.head? = some e) :
    findEntry (es.foldl putEntry []) e.uuid = none ∧
    es.foldl putEntry [] = es.tail := by
  have htail : es.foldl putEntry [] = es.tail := by
    rw [foldl_putEntry_drop, h21]
    have h1 : 21 - CACHE_MAXLEN = 1 := rfl
    rw [h1, List.drop_one]
  refine ⟨?_, htail⟩
  rw [htail]
  cases es with
  | nil => simp at h21
  | cons a t =>
    simp only [List.head?_cons, Option.some.injEq] at hhead
    subst hhead
    simp only [List.map_cons, List.nodup_cons] at hnd
    refine findEntry_eq_none t a.uuid fun d hd hcontra => ?_
    exact hnd.1 (hcontra ▸ List.mem_map_of_mem CachedFile.uuid hd)

/-- An entry of the `recent_data_files` dict shape with a distinct numeric
uuid, used to instantiate the cache theorems. -/
def sampleEntry (i : Nat) : CachedFile :=
  ⟨Nat.repr i, "payload", "application/json"⟩

/-- 21 sample entries with pairwise-distinct uuids. -/
def sampleEntries : List CachedFile := (List.range 21).map sampleEntry

theorem cache_21_evicts_first_witness :
    findEntry (sampleEntries.foldl putEntry []) (sampleEntry 0).uuid = none ∧
    sampleEntries.foldl putEntry [] = sampleEntries.tail :=
  cache_21_evicts_first sampleEntries (sampleEntry 0)
    (by decide) (by decide) (by decide)

/-- C9: the `/datafile` lookup never modifies the cache, and `putEntry`
removes an entry only as capacity eviction: below capacity it is a pure
append, and at capacity only the oldest entry is dropped. -/
theorem datafile_route_frame (c : List CachedFile) (u : String)
    (e : CachedFile) :
    (datafile_route c u).2 = c ∧
    (c.length < CACHE_MAXLEN → putEntry c e = c ++ [e]) ∧
    (¬ c.length < CACHE_MAXLEN → putEntry c e = c.tail ++ [e]) := by
  refine ⟨?_, fun h => by rw [putEntry, if_pos h],
    fun h => by rw [putEntry, if_neg h]⟩
  rw [datafile_route]
  cases findEntry c u <;> rfl

theorem datafile_route_frame_witness :
    (datafile_route [sampleEntry 0] (sampleEntry 0).uuid).2 = [sampleEntry 0] ∧
    putEntry [sampleEntry 0] (sampleEntry 1) = [sampleEntry 0, sampleEntry 1] :=
  ⟨(datafile_route_frame [sampleEntry 0] (sampleEntry 0).uuid (sampleEntry 1)).1,
   (datafile_route_frame [sampleEntry 0] (sampleEntry 0).uuid
      (sampleEntry 1)).2.1 (by decide)⟩

/-- C10: when two or more cached entries share an identifier, lookup by
that identifier returns the payload of the earliest-inserted matching
entry, because the linear scan proceeds oldest to newest. -/
theorem duplicate_uuid_oldest_wins (c : List CachedFile) (i j : Nat)
    (hi : i < c.length) (hj : j < c.length) (_hij : i < j)
    (_hdup : (c.get ⟨j, hj⟩).uuid = (c.get ⟨i, hi⟩).uuid)
    (hfirst : ∀ k (hk : k < i),
      (c.get ⟨k, Nat.lt_trans hk hi⟩).uuid ≠ (c.get ⟨i, hi⟩).uuid) :
    (datafile_route c ((c.get ⟨i, hi⟩).uuid)).1
      = HttpResult.ok ((c.get ⟨i, hi⟩).bytes) flaskDefaultMimetype := by
  have hfind := find?_first (fun d => d.uuid == (c.get ⟨i, hi⟩).uuid) c i hi
    (fun k hk => by simpa using hfirst k hk) (by simp)
  rw [datafile_route, findEntry, hfind]

theorem duplicate_uuid_oldest_wins_witness :
    (datafile_route [⟨"a", "first", "m"⟩, ⟨"a", "second", "m"⟩]
        ((CachedFile.mk "a" "first" "m").uuid)).1
      = HttpResult.ok "first" flaskDefaultMimetype :=
  duplicate_uuid_oldest_wins [⟨"a", "first", "m"⟩, ⟨"a", "second", "m"⟩]
    0 1 (by decide) (by decide) (by decide) (by decide)
    (fun k hk => absurd hk (Nat.not_lt_zero k))

/-- A cached entry whose stored media type is `application/json`. -/
def cexEntry : CachedFile := ⟨"a", "body", "application/json"⟩

/-- C3 counterexample: looking up a freshly inserted entry returns its
bytes under the framework's default media type `text/html`, not the stored
media type `application/json`: `flask.Response(data_file['bytes'])` never
passes the stored `mime-type` along. -/
theorem datafile_default_mimetype_cex :
    (datafile_route [cexEntry] "a").1 = HttpResult.ok "body" "text/html" ∧
    (datafile_route [cexEntry] "a").1
      ≠ HttpResult.ok "body" "application/json" := by
  decide

/-- C3 amended: a freshly inserted entry (identifier not already cached)
is retrievable by its identifier and the response carries exactly the
stored bytes, under the framework's default media type rather than the
stored one; an identifier matching no cached entry yields not-found. -/
theorem datafile_lookup_amended (c : List CachedFile) (e : CachedFile)
    (u : String)
    (hfresh : ∀ d ∈ c, d.uuid ≠ e.uuid)
    (habsent : ∀ d ∈ c, d.uuid ≠ u) :
    (datafile_route (putEntry c e) e.uuid).1
      = HttpResult.ok e.bytes flaskDefaultMimetype ∧
    (datafile_route c u).1 = HttpResult.notFound := by
  constructor
  · rw [datafile_route, findEntry_putEntry_fresh c e hfresh]
  · rw [datafile_route, findEntry_eq_none c u habsent]

theorem datafile_lookup_amended_witness :
    (datafile_route (putEntry [cexEntry] ⟨"b", "doc", "text/plain"⟩)
        (CachedFile.mk "b" "doc" "text/plain").uuid).1
      = HttpResult.ok "doc" flaskDefaultMimetype ∧
    (datafile_route [cexEntry] "z").1 = HttpResult.notFound :=
  datafile_lookup_amended [cexEntry] ⟨"b", "doc", "text/plain"⟩ "z"
    (by decide) (by decide)

/-- A value held in a `WPSResponse` output dict: the demo handlers store
either a string or a file reference. -/
inductive OutputValue where
  | str (s : String)
  | ref (url : String) (mimeType : String)
deriving DecidableEq, Repr

/-- A `WPSResponse({...})`: the handler's output dict. -/
def WPSOutputs := List (String × OutputValue)

/-- Python's `%`-formatting for a template with a single `%s` hole:
the characters of the template are copied until `%s` is met, which is
replaced by the argument. -/
def substPercentS : List Char → List Char → List Char
  | [], _ => []
  | '%' :: 's' :: rest, arg => arg ++ rest
  | c :: rest, arg => c :: substPercentS rest arg

/-- `template % arg` for a single-`%s` template. -/
def pyFormatS (template arg : String) : String :=
  ⟨substPercentS template.data arg.data⟩

/-- The `say_hello` handler (demo.py lines 31-32):
`WPSResponse({'message': "Hello %s!" % request.inputs['name']})`. -/
def say_hello (name : String) : WPSOutputs :=
  [("message", OutputValue.str (pyFormatS "Hello %s!" name))]

/-- Substituting into the greeting template is the same as concatenating
around the argument. -/
theorem pyFormatS_hello (s : String) :
    pyFormatS "Hello %s!" s = "Hello " ++ s ++ "!" := by
  cases s with
  | mk data =>
    apply String.ext
    simp [pyFormatS, substPercentS, String.data_append]

/-- C7: for any name string the echo handler's response text is the fixed
greeting template with the name substituted verbatim; in particular
"World" yields exactly "Hello World!". -/
theorem say_hello_greeting (s : String) :
    say_hello s = [("message", OutputValue.str ("Hello " ++ s ++ "!"))] ∧
    say_hello "World" = [("message", OutputValue.str "Hello World!")] := by
  refine ⟨?_, ?_⟩
  · rw [say_hello, pyFormatS_hello]
  · rw [say_hello, pyFormatS_hello]
    rfl

/-- The pywps-4 style example process (processes/sayhello.py lines
20-23), not registered in the demo app's service:
`response.outputs['response'].data = 'Hello ' + request.inputs['name'].data`.
Unlike the demo app's echo handler its greeting carries no exclamation
mark. -/
def sayHelloProcessOutput (name : String) : String :=
  "Hello " ++ name

/-- An XML element with a (namespace-qualified) tag and child elements,
as produced by `lxml.etree.parse`; text nodes and attributes play no role
in the feature count. -/
inductive XmlElem where
  | elem (tag : String) (children : List XmlElem)

mutual
/-- The number of elements matched by the XPath `//gml:featureMember`:
every element of the tree (the root included) whose qualified tag is
`gml:featureMember`. -/
def countFeatureMembers : XmlElem → Nat
  | .elem tag children =>
    (if tag = "gml:featureMember" then 1 else 0)
      + countFeatureMembersList children

/-- Sum of `countFeatureMembers` over a list of sibling elements. -/
def countFeatureMembersList : List XmlElem → Nat
  | [] => 0
  | x :: xs => countFeatureMembers x + countFeatureMembersList xs
end

/-- The `feature_count` handler (demo.py lines 35-40).  Its input is the
outcome of `lxml.etree.parse` on the `layer` input: a parsed document, or
the parse error raised on malformed XML, which the handler propagates.
On a parsed document it answers
`WPSResponse({'count': str(len(xpath_ns(doc, '//gml:featureMember')))})`. -/
def feature_count (parsed : Except String XmlElem) :
    Except String WPSOutputs :=
  match parsed with
  | .error err => .error err
  | .ok doc =>
    .ok [("count", OutputValue.str (Nat.repr (countFeatureMembers doc)))]

/-- C8: on a well-formed document with `n` feature-member elements the
handler returns the decimal string of `n`; on a malformed input the parse
error propagates and no count is returned. -/
theorem feature_count_correct (doc : XmlElem) (n : Nat) (err : String)
    (hn : countFeatureMembers doc = n) :
    feature_count (Except.ok doc)
      = Except.ok [("count", OutputValue.str (Nat.repr n))] ∧
    feature_count (Except.error err) = Except.error err := by
  subst hn
  exact ⟨rfl, rfl⟩

/-- A document with three `gml:featureMember` elements below the root. -/
def sampleGml : XmlElem :=
  .elem "gml:FeatureCollection"
    [.elem "gml:featureMember" [.elem "feature" []],
     .elem "gml:featureMember" [.elem "feature" []],
     .elem "gml:featureMember" [.elem "feature" []]]

theorem feature_count_correct_witness :
    feature_count (Except.ok sampleGml)
      = Except.ok [("count", OutputValue.str "3")] ∧
    feature_count (Except.error "malformed") = Except.error "malformed" :=
  feature_count_correct sampleGml 3 "malformed" (by decide)

/-- A directory on the filesystem, identified by a numeric id, together
with the names of the files it holds. -/
abbrev FileSys := List (Nat × List String)

/-- `tempfile.mkdtemp` returns a directory name not yet on the
filesystem: one greater than every existing id. -/
def mkdtempName (fs : FileSys) : Nat :=
  (fs.map Prod.fst).foldr max 0 + 1

/-- Writing a file into a directory (`path.write_bytes`, or a file
produced there by an external tool). -/
def writeFile (d : Nat) (name : String) (fs : FileSys) : FileSys :=
  fs.map fun p => if p.1 = d then (p.1, p.2 ++ [name]) else p

/-- `path.rmtree()`: the directory and everything inside it disappear. -/
def rmtree (d : Nat) (fs : FileSys) : FileSys :=
  fs.filter fun p => p.1 ≠ d

/-- The `temp_dir` context manager (demo.py lines 22-28): make a fresh
temporary directory, run the body — whose outcome, normal or exceptional,
is reified in `Except` — and remove the directory afterwards on either
path, as the `try/finally` guarantees.  `σ` threads the remaining mutable
state (the result cache) through the body. -/
def temp_dir {E α σ : Type} (body : Nat → FileSys → σ → Except E α × FileSys × σ)
    (fs : FileSys) (s : σ) : Except E α × FileSys × σ :=
  let tmp := mkdtempName fs
  let out := body tmp ((tmp, []) :: fs) s
  (out.1, rmtree tmp out.2.1, out.2.2)

/-- A GeoJSON geometry: a point, or a non-point geometry with its
coordinate structure. -/
inductive Geometry where
  | point (x y : Int)
  | polygon (rings : List (List (Int × Int)))
  | lineString (coords : List (Int × Int))
deriving DecidableEq, Repr

/-- A GeoJSON feature: a geometry plus its other members (properties and
the like), kept opaque. -/
structure Feature where
  properties : String
  geometry : Geometry
deriving DecidableEq, Repr

/-- A GeoJSON feature collection: its `features` array plus the other
top-level members, kept opaque. -/
structure FeatureCollection where
  meta : String
  features : List Feature
deriving DecidableEq, Repr

/-- The per-feature update of the centroid loop:
`feature['geometry'] = mapping(shape(feature['geometry']).centroid)`,
with the centroid computation (shapely) abstracted as a function from
geometries to point coordinates. -/
def centroidFeature (centroid : Geometry → Int × Int) (f : Feature) :
    Feature :=
  { f with geometry := Geometry.point (centroid f.geometry).1 (centroid f.geometry).2 }

/-- The whole-collection transform performed by the `for feature in
data['features']` loop: every feature's geometry is replaced by the point
centroid of its original geometry; nothing else changes. -/
def centroidTransform (centroid : Geometry → Int × Int)
    (data : FeatureCollection) : FeatureCollection :=
  { data with features := data.features.map (centroidFeature centroid) }

/-- `flask.url_for('datafile', uuid=u, _external=True)`: the absolute URL
of the `datafile` route for the given uuid. -/
def urlFor (baseUrl u : String) : String :=
  baseUrl ++ "/datafile/" ++ u

/-- The body of the `with temp_dir() as tmp:` block of the `centroids`
handler (demo.py lines 45-64).  External collaborators are parameters:
`conv` is the `ogr2ogr` invocation plus `json.loads` of the file it wrote
(`Except.error code` reifies `subprocess.check_call` raising on a
non-zero exit `code`), `centroid` is shapely's centroid, `dumps` is
`json.dumps(..., indent=2)`, and `freshUuid` is the generated `uuid4`. -/
def centroidsBody (conv : String → Except Nat FeatureCollection)
    (centroid : Geometry → Int × Int) (dumps : FeatureCollection → String)
    (freshUuid baseUrl layer : String) (tmp : Nat) (fs : FileSys)
    (cache : List CachedFile) :
    Except Nat WPSOutputs × FileSys × List CachedFile :=
  let fs1 := writeFile tmp "input.gml" fs
  match conv layer with
  | .error code => (.error code, fs1, cache)
  | .ok data =>
    let fs2 := writeFile tmp "input.geojson" fs1
    let out_bytes := dumps (centroidTransform centroid data)
    let data_file : CachedFile := ⟨freshUuid, out_bytes, "application/json"⟩
    let cache2 := putEntry cache data_file
    let url := urlFor baseUrl freshUuid
    (.ok [("centroids_layer", OutputValue.ref url "application/json")],
      fs2, cache2)

/-- The `centroids` handler (demo.py lines 43-64): the body above run
under `temp_dir`. -/
def centroids (conv : String → Except Nat FeatureCollection)
    (centroid : Geometry → Int × Int) (dumps : FeatureCollection → String)
    (freshUuid baseUrl layer : String) (fs : FileSys)
    (cache : List CachedFile) :
    Except Nat WPSOutputs × FileSys × List CachedFile :=
  temp_dir (centroidsBody conv centroid dumps freshUuid baseUrl layer) fs cache

/-- After `rmtree d`, the directory `d` is gone from the filesystem. -/
theorem rmtree_not_mem (d : Nat) (fs : FileSys) :
    d ∉ (rmtree d fs).map Prod.fst := by
  intro h
  rcases List.mem_map.mp h with ⟨p, hp, hfst⟩
  rcases List.mem_filter.mp hp with ⟨-, hne⟩
  simp [hfst] at hne

/-- C5: on every invocation of the centroid handler the scoped temporary
directory is absent from the filesystem afterwards — on the success path
and on the failure path alike — and when the external conversion tool
raises, the directory is removed and then the error still propagates. -/
theorem centroids_temp_dir_removed
    (conv : String → Except Nat FeatureCollection)
    (centroid : Geometry → Int × Int) (dumps : FeatureCollection → String)
    (freshUuid baseUrl layer : String) (fs : FileSys)
    (cache : List CachedFile) :
    mkdtempName fs ∉
      ((centroids conv centroid dumps freshUuid baseUrl layer fs
        cache).2.1).map Prod.fst ∧
    (∀ code, conv layer = Except.error code →
      (centroids conv centroid dumps freshUuid baseUrl layer fs
        cache).1 = Except.error code) := by
  constructor
  · exact rmtree_not_mem (mkdtempName fs) _
  · intro code hcode
    simp [centroids, temp_dir, centroidsBody, hcode]

theorem centroids_temp_dir_removed_witness :
    mkdtempName [] ∉
      ((centroids (fun _ => Except.error 1) (fun _ => (0, 0)) (fun _ => "")
        "u" "http://h" "<gml/>" [] []).2.1).map Prod.fst ∧
    (centroids (fun _ => Except.error 1) (fun _ => (0, 0)) (fun _ => "")
        "u" "http://h" "<gml/>" [] []).1 = Except.error 1 :=
  ⟨(centroids_temp_dir_removed (fun _ => Except.error 1) (fun _ => (0, 0))
      (fun _ => "") "u" "http://h" "<gml/>" [] []).1,
   (centroids_temp_dir_removed (fun _ => Except.error 1) (fun _ => (0, 0))
      (fun _ => "") "u" "http://h" "<gml/>" [] []).2 1 rfl⟩

/-- C6: a non-zero exit of the external conversion tool makes the handler
end in the propagated error — no result is returned — and leaves the
result cache exactly as it was: no entry is inserted. -/
theorem centroids_tool_failure_aborts
    (conv : String → Except Nat FeatureCollection)
    (centroid : Geometry → Int × Int) (dumps : FeatureCollection → String)
    (freshUuid baseUrl layer : String) (fs : FileSys)
    (cache : List CachedFile) (code : Nat)
    (hcode : conv layer = Except.error code) :
    (centroids conv centroid dumps freshUuid baseUrl layer fs
      cache).1 = Except.error code ∧
    (centroids conv centroid dumps freshUuid baseUrl layer fs
      cache).2.2 = cache := by
  constructor <;> simp [centroids, temp_dir, centroidsBody, hcode]

theorem centroids_tool_failure_aborts_witness :
    (centroids (fun _ => Except.error 2) (fun _ => (0, 0)) (fun _ => "")
      "u" "http://h" "<gml/>" [] [cexEntry]).1 = Except.error 2 ∧
    (centroids (fun _ => Except.error 2) (fun _ => (0, 0)) (fun _ => "")
      "u" "http://h" "<gml/>" [] [cexEntry]).2.2 = [cexEntry] :=
  centroids_tool_failure_aborts (fun _ => Except.error 2) (fun _ => (0, 0))
    (fun _ => "") "u" "http://h" "<gml/>" [] [cexEntry] 2 rfl

/-- The entry just appended is in the cache, eviction or not. -/
theorem self_mem_putEntry (c : List CachedFile) (e : CachedFile) :
    e ∈ putEntry c e := by
  rw [putEntry]
  by_cases h : c.length < CACHE_MAXLEN
  · rw [if_pos h]; exact List.mem_append_right c (List.mem_singleton_self e)
  · rw [if_neg h]; exact List.mem_append_right c.tail (List.mem_singleton_self e)

/-- C4: on a valid layer (the conversion succeeds) the centroid handler
returns a reference output whose value is the absolute URL of the
retrieval route for the fresh identifier, with media type
`application/json`; the cache then holds an entry under that identifier
with media type `application/json` whose bytes are the serialised
transformed collection; fetching that URL returns exactly those bytes;
and the transformed collection has as many features as the converted
input, each feature's geometry being the point centroid of the original
feature's geometry with nothing else changed. -/
theorem centroids_success
    (conv : String → Except Nat FeatureCollection)
    (centroid : Geometry → Int × Int) (dumps : FeatureCollection → String)
    (freshUuid baseUrl layer : String) (fs : FileSys)
    (cache : List CachedFile) (data : FeatureCollection) (n : Nat)
    (hconv : conv layer = Except.ok data)
    (hn : data.features.length = n)
    (hfresh : ∀ d ∈ cache, d.uuid ≠ freshUuid) :
    (centroids conv centroid dumps freshUuid baseUrl layer fs cache).1
      = Except.ok [("centroids_layer",
          OutputValue.ref (urlFor baseUrl freshUuid) "application/json")] ∧
    (∃ d ∈ (centroids conv centroid dumps freshUuid baseUrl layer fs
        cache).2.2,
      d.uuid = freshUuid ∧ d.mimeType = "application/json" ∧
      d.bytes = dumps (centroidTransform centroid data)) ∧
    (datafile_route (centroids conv centroid dumps freshUuid baseUrl layer
        fs cache).2.2 freshUuid).1
      = HttpResult.ok (dumps (centroidTransform centroid data))
          flaskDefaultMimetype ∧
    (centroidTransform centroid data).features.length = n ∧
    List.Forall₂
      (fun f g => g.properties = f.properties ∧
        g.geometry = Geometry.point (centroid f.geometry).1
          (centroid f.geometry).2)
      data.features (centroidTransform centroid data).features := by
  have hcache : (centroids conv centroid dumps freshUuid baseUrl layer fs
      cache).2.2 = putEntry cache
        ⟨freshUuid, dumps (centroidTransform centroid data),
          "application/json"⟩ := by
    simp [centroids, temp_dir, centroidsBody, hconv]
  refine ⟨?_, ?_, ?_, ?_, ?_⟩
  · simp [centroids, temp_dir, centroidsBody, hconv]
  · refine ⟨⟨freshUuid, dumps (centroidTransform centroid data),
      "application/json"⟩, ?_, rfl, rfl, rfl⟩
    rw [hcache]
    exact self_mem_putEntry cache _
  · rw [hcache, datafile_route, findEntry_putEntry_fresh cache _ hfresh]
  · rw [centroidTransform]
    simpa using hn
  · rw [centroidTransform]
    simp only [List.forall₂_map_right_iff]
    rw [List.forall₂_same]
    intro f _
    exact ⟨rfl, rfl⟩

/-- A two-feature collection used to instantiate the centroid theorem. -/
def sampleFC : FeatureCollection :=
  ⟨"meta",
   [⟨"p1", Geometry.polygon [[(0, 0), (4, 0), (4, 4), (0, 4)]]⟩,
    ⟨"p2", Geometry.lineString [(0, 0), (2, 2)]⟩]⟩

/-- A concrete stand-in for the external centroid computation. -/
def sampleCentroid : Geometry → Int × Int := fun _ => (1, 1)

/-- A concrete stand-in for json serialisation. -/
def sampleDumps : FeatureCollection → String :=
  fun c => Nat.repr c.features.length

theorem centroids_success_witness :
    (centroids (fun _ => Except.ok sampleFC) sampleCentroid sampleDumps
      "u-1" "http://localhost:5000" "<gml/>" [] []).1
      = Except.ok [("centroids_layer",
          OutputValue.ref (urlFor "http://localhost:5000" "u-1")
            "application/json")] ∧
    (∃ d ∈ (centroids (fun _ => Except.ok sampleFC) sampleCentroid
        sampleDumps "u-1" "http://localhost:5000" "<gml/>" [] []).2.2,
      d.uuid = "u-1" ∧ d.mimeType = "application/json" ∧
      d.bytes = sampleDumps (centroidTransform sampleCentroid sampleFC)) ∧
    (datafile_route (centroids (fun _ => Except.ok sampleFC) sampleCentroid
        sampleDumps "u-1" "http://localhost:5000" "<gml/>" [] []).2.2
        "u-1").1
      = HttpResult.ok
          (sampleDumps (centroidTransform sampleCentroid sampleFC))
          flaskDefaultMimetype ∧
    (centroidTransform sampleCentroid sampleFC).features.length = 2 ∧
    List.Forall₂
      (fun f g => g.properties = f.properties ∧
        g.geometry = Geometry.point (sampleCentroid f.geometry).1
          (sampleCentroid f.geometry).2)
      sampleFC.features
      (centroidTransform sampleCentroid sampleFC).features :=
  centroids_success (fun _ => Except.ok sampleFC) sampleCentroid sampleDumps
    "u-1" "http://localhost:5000" "<gml/>" [] [] sampleFC 2
    rfl (by decide) (by decide)

end PywpsFlaskDemo
